import Mathlib

/-!
Shallow embedding of the `opt` Go package (opt.go): a generic optional
container `Optional[T]`, its constructors, accessors, transformation
combinators, and its JSON marshal/unmarshal methods, together with proofs
of the specified contracts.
-/

namespace Opt

/-- Go source: `type container[T any] []T`, the internal slice that hides and
holds the underlying value. The library only ever constructs the nil slice
(no value) or a one-element slice `{v}`, and discriminates solely on
`o == nil`, so the container is modeled as `Option T`: `none` for the nil
slice, `some v` for `{v}`. -/
abbrev container (T : Type) : Type := Option T

/-- Go source: `type Optional[T any] container[T]`. -/
abbrev Optional (T : Type) : Type := container T

/-- Go `NewEmpty`: `func NewEmpty[T any]() Optional[T] { return nil }`. -/
def NewEmpty (T : Type) : Optional T := none

/-- Go `New`: `func New[T any](value T) Optional[T] { return Optional[T]{value} }`. -/
def New {T : Type} (value : T) : Optional T := some value

/-- Go `NewSafe`: `if ok { return Optional[T]{value} }; return nil`. -/
def NewSafe {T : Type} (value : T) (ok : Bool) : Optional T :=
  if ok then some value else none

/-- Go `NewPtr`: a Go pointer `*T` is modeled as `Option T` with `none` for
the nil pointer and `some v` for a pointer whose dereference is `v`.
Source: `if ptr == nil { return NewEmpty[T]() }; return New(*ptr)`. -/
def NewPtr {T : Type} (ptr : Option T) : Optional T :=
  match ptr with
  | none => NewEmpty T
  | some v => New v

/-- Go `NewPtrOr`: `if ptr == nil { return New(fallback) }; return New(*ptr)`. -/
def NewPtrOr {T : Type} (ptr : Option T) (fallback : T) : Optional T :=
  match ptr with
  | none => New fallback
  | some v => New v

/-- Go `Ok`: `return o != nil`. -/
def Ok {T : Type} (o : Optional T) : Bool :=
  match o with
  | none => false
  | some _ => true

/-- Go `Get`: named results `(value T, ok bool)`; on the nil container the
bare `return` yields the zero value of `T` and `false`. Go zero values are
modeled by `Inhabited.default`. Source: `if o == nil { return }; return o[0], true`. -/
def Get {T : Type} [Inhabited T] (o : Optional T) : T × Bool :=
  match o with
  | none => (default, false)
  | some v => (v, true)

/-- Go `Ptr`: `if o == nil { return nil }; return &o[0]`. The returned Go
pointer is modeled as `Option T`: `none` is the nil pointer, `some v` a
non-nil pointer whose dereference is `v`. -/
def Ptr {T : Type} (o : Optional T) : Option T :=
  match o with
  | none => none
  | some v => some v

/-- Go `OrCall`: `if o != nil { return o[0] }; return fn()`. The Go
zero-argument supplier `func() T` is modeled as `Unit → T`. -/
def OrCall {T : Type} (o : Optional T) (fn : Unit → T) : T :=
  match o with
  | some v => v
  | none => fn ()

/-- Go `OrZero`: `if o == nil { var zero T; return zero }; return o[0]`. -/
def OrZero {T : Type} [Inhabited T] (o : Optional T) : T :=
  match o with
  | none => default
  | some v => v

/-- Go `Map`: `if in == nil { return }; return Optional[Out]{fn(in[0])}`. -/
def Map {In Out : Type} (o : Optional In) (fn : In → Out) : Optional Out :=
  match o with
  | none => none
  | some v => some (fn v)

/-- Go `MapErr`: the Go callback `func(In) (Out, error)` is modeled as
`In → Out × Option Err` with `none` for a nil error. Source:
`if in == nil { return }; out, err := fn(in[0]);
if err != nil { return nil, err }; return Optional[Out]{out}, nil`. -/
def MapErr {In Out Err : Type} (o : Optional In) (fn : In → Out × Option Err) :
    Optional Out × Option Err :=
  match o with
  | none => (none, none)
  | some x =>
    match fn x with
    | (_, some e) => (none, some e)
    | (out, none) => (some out, none)

/-- Payload codec: the `encoding/json` primitives for the payload type `T`
that `MarshalJSON` and `UnmarshalJSON` delegate to. `enc` models
`json.Marshal` of a `T` (assumed total here), `dec` models `json.Unmarshal`
into a `T`; Go error values are modeled as strings. -/
structure Codec (T : Type) where
  enc : T → String
  dec : String → Except String T

/-- Go `MarshalJSON`: `if v, ok := o.Get(); ok { return json.Marshal(v) };
return []byte("null"), nil`. Byte slices are modeled as strings. -/
def MarshalJSON {T : Type} [Inhabited T] (c : Codec T) (o : Optional T) : String :=
  let vok := Get o
  if vok.2 then c.enc vok.1 else "null"

/-- Go `UnmarshalJSON`: the pointer receiver `*o` is modeled by explicit
state passing: the function takes the state of the target before the call
and returns its state after the call paired with the returned error
(`none` = nil error). Source:
`if string(data) == "null" { *o = NewEmpty[T](); return nil };
var v T; err := json.Unmarshal(data, &v); if err != nil { return err };
*o = New(v); return nil` — on a decode error the method returns before
assigning `*o`, so the state is unchanged in that branch. -/
def UnmarshalJSON {T : Type} (c : Codec T) (o : Optional T) (data : String) :
    Optional T × Option String :=
  if data = "null" then (NewEmpty T, none)
  else
    match c.dec data with
    | Except.error e => (o, some e)
    | Except.ok v => (New v, none)

/-- Accumulating decimal-digit reader used by `parseNat`. -/
def parseNatAux : List Char → Nat → Option Nat
  | [], acc => some acc
  | c :: cs, acc =>
    if '0' ≤ c ∧ c ≤ '9' then parseNatAux cs (acc * 10 + (c.toNat - '0'.toNat))
    else none

/-- Decimal numeral reader: `some n` on a non-empty all-digit string,
`none` otherwise. Used to model `json.Unmarshal` into a Go integer. -/
def parseNat (s : String) : Option Nat :=
  match s.data with
  | [] => none
  | cs => parseNatAux cs 0

/-- Standard JSON codec for a non-negative Go integer payload: encode as the
decimal numeral, decode a decimal numeral, fail on anything else. -/
def natCodec : Codec Nat where
  enc n := Nat.repr n
  dec s :=
    match parseNat s with
    | some n => Except.ok n
    | none => Except.error "invalid number"

/-- Standard Go JSON codec for a nil-able payload such as `*int`, modeled as
`Option Nat`: `json.Marshal` encodes a nil pointer as the literal `null`,
and `json.Unmarshal` decodes `null` into a nil pointer. -/
def ptrNatCodec : Codec (Option Nat) where
  enc p :=
    match p with
    | none => "null"
    | some n => Nat.repr n
  dec s :=
    if s = "null" then Except.ok none
    else
      match parseNat s with
      | some n => Except.ok (some n)
      | none => Except.error "invalid number"

/-- Claim C1, counterexample: the round-trip claim fails as stated, at the
payload type modeling `*int` with its standard Go JSON codec. The codec
itself round-trips at the nil pointer (first conjunct), yet unmarshaling
the marshaled form of `Present(nil-pointer)` yields `Empty`, not
`Present(nil-pointer)` (second and third conjuncts): the held nil pointer
encodes as the literal `null`, which `UnmarshalJSON` maps to the empty
optional. -/
theorem C1_json_roundtrip_counterexample :
    ptrNatCodec.dec (ptrNatCodec.enc (none : Option Nat)) = Except.ok (none : Option Nat)
    ∧ (UnmarshalJSON ptrNatCodec (New (none : Option Nat))
        (MarshalJSON ptrNatCodec (New (none : Option Nat)))).1 = NewEmpty (Option Nat)
    ∧ NewEmpty (Option Nat) ≠ New (none : Option Nat) :=
  ⟨rfl, rfl, by decide⟩

/-- Claim C1 (amended): for every payload codec that round-trips at `v` and
whose encoding of `v` is not the literal `null` token, `UnmarshalJSON`
applied to the output of `MarshalJSON` restores `Present(v)`; and decoding
the encoding of `Empty` yields `Empty` unconditionally, whatever state the
target held before the call. -/
theorem C1_json_roundtrip (T : Type) [Inhabited T] (c : Codec T) (v : T)
    (henc : c.enc v ≠ "null") (hdec : c.dec (c.enc v) = Except.ok v)
    (o₁ o₂ : Optional T) :
    UnmarshalJSON c o₁ (MarshalJSON c (New v)) = (New v, none)
    ∧ UnmarshalJSON c o₂ (MarshalJSON c (NewEmpty T)) = (NewEmpty T, none) := by
  constructor
  · have hm : MarshalJSON c (New v) = c.enc v := rfl
    rw [hm]
    unfold UnmarshalJSON
    rw [if_neg henc, hdec]
  · rfl

/-- Witness for C1 at the integer codec and `v = 5`. -/
theorem C1_json_roundtrip_witness :
    UnmarshalJSON natCodec (NewEmpty Nat) (MarshalJSON natCodec (New 5)) = (New 5, none)
    ∧ UnmarshalJSON natCodec (New 7) (MarshalJSON natCodec (NewEmpty Nat)) = (NewEmpty Nat, none) :=
  C1_json_roundtrip Nat natCodec 5 (by decide) (by rfl) (NewEmpty Nat) (New 7)

/-- Claim C2: `Map` on an empty optional returns empty for every `fn`
(so the result never depends on `fn`, which is therefore not invoked), and
`Map` on `Present(v)` returns `Present(fn v)`. -/
theorem C2_map_contract (In Out : Type) (fn : In → Out) (v : In) :
    Map (NewEmpty In) fn = NewEmpty Out ∧ Map (New v) fn = New (fn v) :=
  ⟨rfl, rfl⟩

/-- Claim C3: `MapErr` on an empty optional returns `(Empty, nil error)` for
every callback (so the callback is not invoked); on `Present(v)` it returns
`(Present(out), nil)` when the callback succeeds with `out`, and
`(Empty, e)` with the callback's exact error `e` when it fails. -/
theorem C3_maperr_contract (In Out Err : Type) (fn fnE : In → Out × Option Err)
    (v : In) (out : Out) (e : Err)
    (hok : fn v = (out, none)) (herr : fnE v = (out, some e)) :
    MapErr (NewEmpty In) fn = (NewEmpty Out, none)
    ∧ MapErr (New v) fn = (New out, none)
    ∧ MapErr (New v) fnE = (NewEmpty Out, some e) := by
  refine ⟨rfl, ?_, ?_⟩
  · show MapErr (some v) fn = (some out, none)
    simp only [MapErr]
    rw [hok]
  · show MapErr (some v) fnE = (none, some e)
    simp only [MapErr]
    rw [herr]

/-- Witness for C3 at `v = 4` with a succeeding and a failing callback. -/
theorem C3_maperr_contract_witness :
    MapErr (NewEmpty Nat) (fun n : Nat => (n + 1, (none : Option String))) = (NewEmpty Nat, none)
    ∧ MapErr (New 4) (fun n : Nat => (n + 1, (none : Option String))) = (New 5, none)
    ∧ MapErr (New 4) (fun n : Nat => (n + 1, some "boom")) = (NewEmpty Nat, some "boom") :=
  C3_maperr_contract Nat Nat String
    (fun n => (n + 1, none)) (fun n => (n + 1, some "boom")) 4 5 "boom" rfl rfl

/-- Claim C4: `NewPtr` of a nil pointer is empty, `NewPtrOr` of a nil
pointer is `Present(fallback)`, and `NewPtrOr` is present for every pointer
and fallback, so it never produces an empty optional. -/
theorem C4_ptr_fallback_asymmetry (T : Type) (fallback : T) (ptr : Option T) :
    NewPtr (none : Option T) = NewEmpty T
    ∧ NewPtrOr (none : Option T) fallback = New fallback
    ∧ Ok (NewPtrOr ptr fallback) = true := by
  refine ⟨rfl, rfl, ?_⟩
  cases ptr <;> rfl

/-- Claim C5: accessing an empty optional never fails and yields the zero
value: `Get` returns `(zero, false)` on empty and `(v, true)` on
`Present(v)`; `OrZero` returns the zero value on empty and `v` on
`Present(v)`. -/
theorem C5_empty_access_zero (T : Type) [Inhabited T] (v : T) :
    Get (NewEmpty T) = ((default : T), false)
    ∧ Get (New v) = (v, true)
    ∧ OrZero (NewEmpty T) = (default : T)
    ∧ OrZero (New v) = v :=
  ⟨rfl, rfl, rfl, rfl⟩

/-- Claim C6: `OrCall` on `Present(v)` returns `v` with a result that does
not depend on the supplier (so the supplier is not invoked), and on empty it
returns exactly the supplier's result `fn ()`. -/
theorem C6_orcall_laziness (T : Type) (v : T) (fn g : Unit → T) :
    OrCall (New v) fn = v
    ∧ OrCall (New v) fn = OrCall (New v) g
    ∧ OrCall (NewEmpty T) fn = fn () :=
  ⟨rfl, rfl, rfl⟩

/-- Claim C7: `NewSafe v true` is `Present(v)` and `NewSafe v false` is
empty, for every `v`. -/
theorem C7_newsafe_pair (T : Type) (v : T) :
    NewSafe v true = New v ∧ NewSafe v false = NewEmpty T :=
  ⟨rfl, rfl⟩

/-- Claim C8: every optional is in exactly one of the two states (empty or
`Present(w)` for some `w`); `Ok` is `true` on `Present(v)` for every `v`,
including the zero value, and `false` on empty; and `Present(zero)` is a
different optional from empty. -/
theorem C8_presence_discriminant (T : Type) [Inhabited T] (v : T) :
    (∀ o : Optional T, o = NewEmpty T ∨ ∃ w, o = New w)
    ∧ Ok (New v) = true
    ∧ Ok (New (default : T)) = true
    ∧ Ok (NewEmpty T) = false
    ∧ New (default : T) ≠ NewEmpty T := by
  refine ⟨?_, rfl, rfl, rfl, ?_⟩
  · intro o
    cases o with
    | none => exact Or.inl rfl
    | some w => exact Or.inr ⟨w, rfl⟩
  · intro h
    exact Option.noConfusion h

/-- Claim C9: `Ptr` on an empty optional returns the nil pointer; on
`Present(v)` it returns a pointer that is not nil and whose dereference
is `v`. -/
theorem C9_ptr_contract (T : Type) (v : T) :
    Ptr (NewEmpty T) = (none : Option T)
    ∧ Ptr (New v) ≠ (none : Option T)
    ∧ Ptr (New v) = some v := by
  refine ⟨rfl, ?_, rfl⟩
  intro h
  exact Option.noConfusion h

/-- Claim C10: when the data is not the `null` token and the payload decoder
fails, `UnmarshalJSON` returns exactly the decoder's error and the target
optional retains exactly the state it had before the call. -/
theorem C10_decode_failure_atomic (T : Type) (c : Codec T) (o : Optional T)
    (data : String) (e : String)
    (hnull : data ≠ "null") (herr : c.dec data = Except.error e) :
    UnmarshalJSON c o data = (o, some e) := by
  unfold UnmarshalJSON
  rw [if_neg hnull, herr]

/-- Witness for C10 at the integer codec, malformed data, and a present
target state. -/
theorem C10_decode_failure_atomic_witness :
    UnmarshalJSON natCodec (New 3) "x" = (New 3, some "invalid number") :=
  C10_decode_failure_atomic Nat natCodec (New 3) "x" "invalid number" (by decide) (by rfl)

end Opt
